import Mathlib

/-!
Verification of the scanner-daemon event reconciler
(src/scanners/scanner_daemon.rs).

The core under verification is the `ScannerDaemon` trait: the dispatcher
loop `start_daemon` and the three handlers `handle_create`,
`handle_remove`, `handle_rename`.  The catalog store (`MediaFile`,
`Media` from the `database` crate) and the ingestors (`mount_file`,
`start`, `fix_orphans` from `MediaScanner`) are external collaborators:
their record shapes and operation contracts are modelled from the spec,
while the handler bodies themselves are translated statement by
statement from the Rust source.
-/

namespace ScannerDaemon

/-- Modelled from the spec: a catalog File record (`MediaFile` in the
`database` crate, which is not part of this repository fragment).  It
owns a stored `path` string (`target_file`), a back-reference `workId`
to exactly one owning Work (`media_id`), and further metadata fields
that the reconciler never touches, collapsed here into `meta`. -/
structure File where
  id : Nat
  path : String
  workId : Nat
  meta : Nat
deriving DecidableEq, Repr

/-- Modelled from the spec: a catalog Work record (`Media` in the
`database` crate), identified by an opaque id. -/
structure Work where
  id : Nat
deriving DecidableEq, Repr

/-- The catalog store state: the two related record kinds. -/
structure Catalog where
  files : List File
  works : List Work
deriving DecidableEq, Repr

/-- A filesystem path as the handlers observe it: its optional text
representation (`Path::to_str`, `none` for a path not representable in
the catalog's text encoding), whether it currently refers to a regular
file (`is_file`) or a directory (`is_dir`), and its extension rendered
as text (`extension().and_then(|e| e.to_str())`). -/
structure FsPath where
  toStr : Option String
  isFile : Bool
  isDir : Bool
  extStr : Option String
deriving DecidableEq, Repr

/-- Modelled from the spec: `findFileByPath` — exact-match lookup of a
File record by its stored path string (`MediaFile::get_by_file`). -/
def findFileByPath (c : Catalog) (p : String) : Option File :=
  c.files.find? (fun f => f.path = p)

/-- Modelled from the spec: `findWorkOfFile` — best-effort owner lookup
(`Media::get_of_mediafile`). -/
def findWorkOfFile (c : Catalog) (f : File) : Option Work :=
  c.works.find? (fun w => w.id = f.workId)

/-- Modelled from the spec: `deleteFile` — delete a File record by id
(`MediaFile::delete`). -/
def deleteFile (c : Catalog) (id : Nat) : Catalog :=
  { c with files := c.files.filter (fun f => f.id ≠ id) }

/-- Modelled from the spec: `listFilesOfWork` — the File records owned
by a Work (`MediaFile::get_of_media`). -/
def listFilesOfWork (c : Catalog) (w : Work) : List File :=
  c.files.filter (fun f => f.workId = w.id)

/-- Modelled from the spec: `deleteWork` — delete a Work record by id
(`Media::delete`). -/
def deleteWork (c : Catalog) (id : Nat) : Catalog :=
  { c with works := c.works.filter (fun w => w.id ≠ id) }

/-- Modelled from the spec: `updateFile` — partial update setting only
the `path` field of the record(s) with the given id
(`UpdateMediaFile { target_file: Some(..), ..Default::default() }`). -/
def updateFile (c : Catalog) (id : Nat) (newPath : String) : Catalog :=
  { c with files := c.files.map (fun f => if f.id = id then { f with path := newPath } else f) }

/-- Outcome oracle for the fallible external operations the handlers
invoke.  Each flag decides whether the corresponding store/ingestor
call succeeds on this invocation; a `false` models the operation
returning its error variant (the store's state is then unchanged). -/
structure Outcomes where
  mountOk : Bool
  getByFileOk : Bool
  getOfMediafileOk : Bool
  deleteFileOk : Bool
  getOfMediaOk : Bool
  deleteWorkOk : Bool
  updateOk : Bool
deriving DecidableEq, Repr

/-- The all-success oracle. -/
def allOk : Outcomes :=
  ⟨true, true, true, true, true, true, true⟩

/-- Oracle on which only `mount_file` fails. -/
def oMountFails : Outcomes :=
  ⟨false, true, true, true, true, true, true⟩

/-- Oracle on which only `MediaFile::delete` fails. -/
def oDeleteFails : Outcomes :=
  ⟨true, true, true, false, true, true, true⟩

/-- Oracle on which only `MediaFile::get_of_media` fails. -/
def oListFails : Outcomes :=
  ⟨true, true, true, true, false, true, true⟩

/-- The log lines the handlers can emit, by level and site. -/
inductive LogEvent where
  | warnMountFailed
  | errDeleteFileFailed
  | errDeleteWorkFailed
  | errUpdateFailed
  | debugUnmatched
  | errStream
deriving DecidableEq, Repr

/-- The catalog-store operations a handler invocation performs, in
order, used to state which store calls are (not) attempted. -/
inductive StoreOp where
  | getByFile (p : String)
  | getOfMediafile (fileId : Nat)
  | delFile (id : Nat)
  | getOfMedia (workId : Nat)
  | delWork (id : Nat)
  | updFile (id : Nat) (newPath : String)
deriving DecidableEq, Repr

/-- Result of one reconciler handler invocation: the catalog state it
leaves behind, the store operations it attempted, and the log lines it
emitted. -/
structure HandlerResult where
  catalog : Catalog
  ops : List StoreOp
  logs : List LogEvent
deriving DecidableEq, Repr

/-- Which ingestors a `handle_create` invocation calls, with their
arguments: `mount_file` receives the path, `start` receives
`path.to_str()` (an optional string in the source), `fix_orphans`
takes no argument. -/
structure CreateTrace where
  mountArgs : List FsPath
  scanArgs : List (Option String)
  fixOrphansCalls : Nat
  logs : List LogEvent
deriving DecidableEq, Repr

/-- Translation of the create-handler guard (lines 52-58): the path is
a regular file and its extension, rendered as text, is a member of the
scanner's `SUPPORTED_EXTS`. -/
def extSupported (exts : List String) : Option String → Bool
  | some e => exts.contains e
  | none => false

/-- Translation of `handle_create` (scanner_daemon.rs lines 47-69).
If the path is a regular file whose extension is in the scanner's
supported set, `mount_file` is invoked; a mount failure logs a warning
and returns early.  Otherwise, if the path is a directory, `start` is
invoked on `path.to_str()`.  In every non-short-circuited case
`fix_orphans` runs afterwards. -/
def handle_create (exts : List String) (o : Outcomes) (path : FsPath) : CreateTrace :=
  if path.isFile && extSupported exts path.extStr then
    if o.mountOk then
      { mountArgs := [path], scanArgs := [], fixOrphansCalls := 1, logs := [] }
    else
      { mountArgs := [path], scanArgs := [], fixOrphansCalls := 0,
        logs := [LogEvent.warnMountFailed] }
  else if path.isDir then
    { mountArgs := [], scanArgs := [path.toStr], fixOrphansCalls := 1, logs := [] }
  else
    { mountArgs := [], scanArgs := [], fixOrphansCalls := 1, logs := [] }

/-- Translation of `handle_remove` (scanner_daemon.rs lines 71-101).
`path.to_str().and_then(get_by_file(..).ok())` resolves the File
record; a miss is a no-op.  The owning Work is resolved best-effort
before deletion.  A failed File deletion logs an error and aborts.
After a successful deletion, if the Work resolved and listing its
remaining files succeeds and is empty, the ghost Work is deleted; a
failed Work deletion logs an error. -/
def handle_remove (c : Catalog) (o : Outcomes) (path : FsPath) : HandlerResult :=
  match path.toStr with
  | none => { catalog := c, ops := [], logs := [] }
  | some x =>
    match (if o.getByFileOk then findFileByPath c x else none) with
    | none => { catalog := c, ops := [StoreOp.getByFile x], logs := [] }
    | some mediaFile =>
      let media : Option Work :=
        if o.getOfMediafileOk then findWorkOfFile c mediaFile else none
      let ops0 := [StoreOp.getByFile x, StoreOp.getOfMediafile mediaFile.id,
                   StoreOp.delFile mediaFile.id]
      if ¬ o.deleteFileOk then
        { catalog := c, ops := ops0, logs := [LogEvent.errDeleteFileFailed] }
      else
        let c1 := deleteFile c mediaFile.id
        match media with
        | none => { catalog := c1, ops := ops0, logs := [] }
        | some m =>
          if o.getOfMediaOk then
            let mediaFiles := listFilesOfWork c1 m
            if mediaFiles.isEmpty then
              if o.deleteWorkOk then
                { catalog := deleteWork c1 m.id,
                  ops := ops0 ++ [StoreOp.getOfMedia m.id, StoreOp.delWork m.id],
                  logs := [] }
              else
                { catalog := c1,
                  ops := ops0 ++ [StoreOp.getOfMedia m.id, StoreOp.delWork m.id],
                  logs := [LogEvent.errDeleteWorkFailed] }
            else
              { catalog := c1, ops := ops0 ++ [StoreOp.getOfMedia m.id], logs := [] }
          else
            { catalog := c1, ops := ops0 ++ [StoreOp.getOfMedia m.id], logs := [] }

/-- Translation of `handle_rename` (scanner_daemon.rs lines 103-128).
The origin path resolves through
`from.to_str().and_then(get_by_file(..).ok())`; a miss is a no-op.  On
a hit the destination is converted with `to.to_str().unwrap()` — the
`unwrap` panics when the destination has no text representation, which
this model renders as `none`.  Otherwise only the `target_file` field
is updated; an update failure is logged. -/
def handle_rename (c : Catalog) (o : Outcomes) (fromP toP : FsPath) :
    Option HandlerResult :=
  match fromP.toStr with
  | none => some { catalog := c, ops := [], logs := [] }
  | some x =>
    match (if o.getByFileOk then findFileByPath c x else none) with
    | none => some { catalog := c, ops := [StoreOp.getByFile x], logs := [] }
    | some mediaFile =>
      match toP.toStr with
      | none => none
      | some t =>
        if o.updateOk then
          some { catalog := updateFile c mediaFile.id t,
                 ops := [StoreOp.getByFile x, StoreOp.updFile mediaFile.id t],
                 logs := [] }
        else
          some { catalog := c,
                 ops := [StoreOp.getByFile x, StoreOp.updFile mediaFile.id t],
                 logs := [LogEvent.errUpdateFailed] }

/-- The debounced notification variants the dispatcher receives from
the watch source channel: the three handled kinds, the unmatched
catch-all (`NoticeWrite`, `Write`, `Chmod`, ... in the source), and a
receive error on the channel itself (`Err(e)` from `rx.recv()`). -/
inductive RecvItem where
  | create (path : FsPath)
  | rename (fromP toP : FsPath)
  | remove (path : FsPath)
  | other
  | recvErr
deriving DecidableEq, Repr

/-- State threaded through the dispatcher loop: the catalog plus the
accumulated logs and a flag recording whether a handler panicked
(which kills the process, ending the loop). -/
structure RunResult where
  catalog : Catalog
  logs : List LogEvent
  panicked : Bool
deriving DecidableEq, Repr

/-- One iteration of the dispatcher loop body (scanner_daemon.rs lines
37-43): dispatch by variant; an unmatched `Ok(event)` logs at debug
level, an `Err(e)` from the channel logs an error, and neither touches
the catalog. -/
def dispatch_step (exts : List String) (c : Catalog) (o : Outcomes) :
    RecvItem → RunResult
  | RecvItem.create p => { catalog := c, logs := (handle_create exts o p).logs, panicked := false }
  | RecvItem.rename f t =>
    match handle_rename c o f t with
    | none => { catalog := c, logs := [], panicked := true }
    | some r => { catalog := r.catalog, logs := r.logs, panicked := false }
  | RecvItem.remove p =>
    let r := handle_remove c o p
    { catalog := r.catalog, logs := r.logs, panicked := false }
  | RecvItem.other => { catalog := c, logs := [LogEvent.debugUnmatched], panicked := false }
  | RecvItem.recvErr => { catalog := c, logs := [LogEvent.errStream], panicked := false }

/-- The dispatcher loop over a finite prefix of the notification
stream: process items in order, stopping only if a handler panics. -/
def run_loop (exts : List String) (o : Outcomes) (c : Catalog) :
    List RecvItem → RunResult
  | [] => { catalog := c, logs := [], panicked := false }
  | item :: rest =>
    let r := dispatch_step exts c o item
    if r.panicked then r
    else
      let rec' := run_loop exts o r.catalog rest
      { catalog := rec'.catalog, logs := r.logs ++ rec'.logs, panicked := rec'.panicked }

/-- Translation of `start_daemon` (scanner_daemon.rs lines 26-45):
watcher construction and `watcher.watch(..)` both propagate failure
with the try operator; once setup succeeds the loop never returns an
error to the caller. -/
def start_daemon (setupOk : Bool) (exts : List String) (o : Outcomes)
    (c : Catalog) (items : List RecvItem) : Except Unit RunResult :=
  if setupOk then Except.ok (run_loop exts o c items) else Except.error ()

/-- A catalog is well formed when record ids and stored paths are
duplicate-free. -/
def WellFormed (c : Catalog) : Prop :=
  (c.files.map File.id).Nodup ∧ (c.works.map Work.id).Nodup ∧
    (c.files.map File.path).Nodup

instance (c : Catalog) : Decidable (WellFormed c) := by
  unfold WellFormed; infer_instance

/-- Sample supported-extension set for concrete evaluations. -/
def extsEx : List String := ["mkv", "mp4"]

/-- Sample path: a regular file with a supported extension, tracked in
the one-file sample catalog. -/
def pSupported : FsPath := ⟨some "/lib/movies/Foo.mkv", true, false, some "mkv"⟩

/-- Sample path: a directory. -/
def pDirEx : FsPath := ⟨some "/lib/movies/Series", false, true, none⟩

/-- Sample path: a regular file with an unsupported extension. -/
def pJpg : FsPath := ⟨some "/lib/movies/poster.jpg", true, false, some "jpg"⟩

/-- Sample tracked File record. -/
def fFoo : File := ⟨1, "/lib/movies/Foo.mkv", 10, 42⟩

/-- Sample catalog: one file owned by one work. -/
def cOne : Catalog := ⟨[fFoo], [⟨10⟩]⟩

/-- Sample untracked origin path. -/
def pUntracked : FsPath := ⟨some "/lib/movies/untracked.mkv", true, false, some "mkv"⟩

/-- Sample destination path with no text representation. -/
def pNoText : FsPath := ⟨none, false, false, none⟩

/-- Sample representable rename destination. -/
def pDest : FsPath := ⟨some "/lib/movies/Foo (2020).mkv", true, false, some "mkv"⟩

/-- Sample File records and catalog with two files owned by one work. -/
def fA : File := ⟨1, "/lib/a.mkv", 10, 0⟩

/-- Second sample File record of the two-file catalog. -/
def fB : File := ⟨2, "/lib/b.mkv", 10, 1⟩

/-- The sample Work owning both files of the two-file catalog. -/
def wEx : Work := ⟨10⟩

/-- Sample catalog: two files owned by the same work. -/
def cTwo : Catalog := ⟨[fA, fB], [wEx]⟩

/-- Path of the first file of the two-file catalog. -/
def pRmA : FsPath := ⟨some "/lib/a.mkv", true, false, some "mkv"⟩

/-- Sample catalog for the rename-panic evaluation. -/
def cBar : Catalog := ⟨[⟨7, "/lib/movies/Bar.mkv", 3, 5⟩], [⟨3⟩]⟩

/-- Tracked origin path of the rename-panic evaluation. -/
def pBarFrom : FsPath := ⟨some "/lib/movies/Bar.mkv", true, false, some "mkv"⟩

/-- Non-representable destination of the rename-panic evaluation. -/
def pBadDest : FsPath := ⟨none, true, false, some "mkv"⟩

lemma findFileByPath_mem {c : Catalog} {s : String} {f : File}
    (h : findFileByPath c s = some f) : f ∈ c.files :=
  List.mem_of_find?_eq_some h

lemma findFileByPath_path {c : Catalog} {s : String} {f : File}
    (h : findFileByPath c s = some f) : f.path = s := by
  unfold findFileByPath at h
  simpa using List.find?_some h

lemma findWorkOfFile_mem {c : Catalog} {f : File} {w : Work}
    (h : findWorkOfFile c f = some w) : w ∈ c.works :=
  List.mem_of_find?_eq_some h

lemma handle_remove_tracked {c : Catalog} {p : FsPath} {s : String} {f : File} {w : Work}
    (hs : p.toStr = some s) (hf : findFileByPath c s = some f)
    (hw : findWorkOfFile c f = some w) :
    handle_remove c allOk p =
      if (listFilesOfWork (deleteFile c f.id) w).isEmpty then
        { catalog := deleteWork (deleteFile c f.id) w.id,
          ops := [StoreOp.getByFile s, StoreOp.getOfMediafile f.id, StoreOp.delFile f.id,
                  StoreOp.getOfMedia w.id, StoreOp.delWork w.id],
          logs := [] }
      else
        { catalog := deleteFile c f.id,
          ops := [StoreOp.getByFile s, StoreOp.getOfMediafile f.id, StoreOp.delFile f.id,
                  StoreOp.getOfMedia w.id],
          logs := [] } := by
  unfold handle_remove
  rw [hs]
  simp [allOk, hf, hw]

lemma handle_remove_tracked_files {c : Catalog} {p : FsPath} {s : String} {f : File}
    (hs : p.toStr = some s) (hf : findFileByPath c s = some f) :
    (handle_remove c allOk p).catalog.files =
      c.files.filter (fun g => g.id ≠ f.id) ∧
    (handle_remove c allOk p).logs = [] := by
  cases hw : findWorkOfFile c f with
  | none =>
    unfold handle_remove
    rw [hs]
    simp [allOk, hf, hw, deleteFile]
  | some w =>
    rw [handle_remove_tracked hs hf hw]
    split <;> simp [deleteFile, deleteWork]

lemma handle_remove_unresolved {c : Catalog} {o : Outcomes} {p : FsPath}
    (h : ∀ s, p.toStr = some s →
      (if o.getByFileOk then findFileByPath c s else none) = none) :
    (handle_remove c o p).catalog = c ∧ (handle_remove c o p).logs = [] := by
  unfold handle_remove
  cases hs : p.toStr with
  | none => exact ⟨rfl, rfl⟩
  | some s =>
    simp [h s hs]

lemma handle_rename_unresolved {c : Catalog} {o : Outcomes} {fromP toP : FsPath}
    (h : ∀ s, fromP.toStr = some s → findFileByPath c s = none) :
    ∃ r, handle_rename c o fromP toP = some r ∧ r.catalog = c ∧ r.logs = [] := by
  unfold handle_rename
  cases hs : fromP.toStr with
  | none => exact ⟨_, rfl, rfl, rfl⟩
  | some s =>
    have hn : (if o.getByFileOk then findFileByPath c s else none) = none := by
      cases o.getByFileOk <;> simp [h s hs]
    simp only [hn]
    exact ⟨_, rfl, rfl, rfl⟩

lemma handle_rename_tracked {c : Catalog} {o : Outcomes} {fromP toP : FsPath}
    {s t : String} {f : File}
    (hs : fromP.toStr = some s) (hf : findFileByPath c s = some f)
    (ht : toP.toStr = some t) (hg : o.getByFileOk = true) (hu : o.updateOk = true) :
    handle_rename c o fromP toP =
      some { catalog := updateFile c f.id t,
             ops := [StoreOp.getByFile s, StoreOp.updFile f.id t],
             logs := [] } := by
  unfold handle_rename
  rw [hs]
  simp [hg, hf, ht, hu]

/-- C3: for a create event on an existing regular file with a supported
extension, mount is invoked exactly once with that path and scan is
never invoked; on mount failure the handler short-circuits, logging a
warning and skipping fixOrphans; on mount success fixOrphans runs
exactly once with nothing logged. -/
theorem create_supported_mounts_once (exts : List String) (o : Outcomes) (p : FsPath)
    (hfile : p.isFile = true) (hext : extSupported exts p.extStr = true) :
    (handle_create exts o p).mountArgs = [p] ∧
    (handle_create exts o p).scanArgs = [] ∧
    (o.mountOk = false →
      (handle_create exts o p).fixOrphansCalls = 0 ∧
      (handle_create exts o p).logs = [LogEvent.warnMountFailed]) ∧
    (o.mountOk = true →
      (handle_create exts o p).fixOrphansCalls = 1 ∧
      (handle_create exts o p).logs = []) := by
  unfold handle_create
  rw [hfile, hext]
  cases h : o.mountOk <;> simp [h]

/-- Witness for C3 at a concrete supported file, evaluating both mount
outcomes. -/
theorem create_supported_mounts_once_witness :
    (pSupported.isFile = true ∧ extSupported extsEx pSupported.extStr = true) ∧
    (handle_create extsEx allOk pSupported).mountArgs = [pSupported] ∧
    (handle_create extsEx allOk pSupported).scanArgs = [] ∧
    (handle_create extsEx allOk pSupported).fixOrphansCalls = 1 ∧
    (handle_create extsEx allOk pSupported).logs = [] ∧
    (handle_create extsEx oMountFails pSupported).mountArgs = [pSupported] ∧
    (handle_create extsEx oMountFails pSupported).fixOrphansCalls = 0 ∧
    (handle_create extsEx oMountFails pSupported).logs = [LogEvent.warnMountFailed] :=
  ⟨⟨rfl, rfl⟩,
   (create_supported_mounts_once extsEx allOk pSupported rfl rfl).1,
   (create_supported_mounts_once extsEx allOk pSupported rfl rfl).2.1,
   ((create_supported_mounts_once extsEx allOk pSupported rfl rfl).2.2.2 rfl).1,
   ((create_supported_mounts_once extsEx allOk pSupported rfl rfl).2.2.2 rfl).2,
   (create_supported_mounts_once extsEx oMountFails pSupported rfl rfl).1,
   ((create_supported_mounts_once extsEx oMountFails pSupported rfl rfl).2.2.1 rfl).1,
   ((create_supported_mounts_once extsEx oMountFails pSupported rfl rfl).2.2.1 rfl).2⟩

/-- C7: for a create event on a directory, mount is never invoked, the
recursive scan is invoked on the path, and fixOrphans runs once; for a
create event on an existing file with an unsupported extension,
neither mount nor scan is invoked but fixOrphans still runs once. -/
theorem create_dir_scans_unsupported_skips (exts : List String) (o : Outcomes)
    (p q : FsPath)
    (hdir : p.isDir = true) (hpfile : p.isFile = false)
    (hqfile : q.isFile = true) (hqext : extSupported exts q.extStr = false)
    (hqdir : q.isDir = false) :
    ((handle_create exts o p).mountArgs = [] ∧
     (handle_create exts o p).scanArgs = [p.toStr] ∧
     (handle_create exts o p).fixOrphansCalls = 1) ∧
    ((handle_create exts o q).mountArgs = [] ∧
     (handle_create exts o q).scanArgs = [] ∧
     (handle_create exts o q).fixOrphansCalls = 1) := by
  constructor
  · unfold handle_create
    rw [hdir, hpfile]
    simp
  · unfold handle_create
    rw [hqfile, hqext, hqdir]
    simp

/-- Witness for C7 at a concrete directory and a concrete unsupported
file. -/
theorem create_dir_scans_unsupported_skips_witness :
    (pDirEx.isDir = true ∧ pDirEx.isFile = false ∧ pJpg.isFile = true ∧
     extSupported extsEx pJpg.extStr = false ∧ pJpg.isDir = false) ∧
    (((handle_create extsEx allOk pDirEx).mountArgs = [] ∧
      (handle_create extsEx allOk pDirEx).scanArgs = [pDirEx.toStr] ∧
      (handle_create extsEx allOk pDirEx).fixOrphansCalls = 1) ∧
     ((handle_create extsEx allOk pJpg).mountArgs = [] ∧
      (handle_create extsEx allOk pJpg).scanArgs = [] ∧
      (handle_create extsEx allOk pJpg).fixOrphansCalls = 1)) :=
  ⟨⟨rfl, rfl, rfl, rfl, rfl⟩,
   create_dir_scans_unsupported_skips extsEx allOk pDirEx pJpg rfl rfl rfl rfl rfl⟩

/-- C8: an unmatched notification only logs at debug level and leaves
the catalog unchanged; a post-setup channel error is logged and the
loop continues with the remaining stream; once setup succeeds the loop
never returns an error to the caller, and a setup failure is the one
propagated failure. -/
theorem dispatcher_error_policy (exts : List String) (o : Outcomes) (c : Catalog)
    (rest items : List RecvItem) :
    dispatch_step exts c o RecvItem.other =
      { catalog := c, logs := [LogEvent.debugUnmatched], panicked := false } ∧
    dispatch_step exts c o RecvItem.recvErr =
      { catalog := c, logs := [LogEvent.errStream], panicked := false } ∧
    run_loop exts o c (RecvItem.recvErr :: rest) =
      { catalog := (run_loop exts o c rest).catalog,
        logs := LogEvent.errStream :: (run_loop exts o c rest).logs,
        panicked := (run_loop exts o c rest).panicked } ∧
    start_daemon true exts o c items = Except.ok (run_loop exts o c items) ∧
    start_daemon false exts o c items = Except.error () := by
  refine ⟨rfl, rfl, ?_, rfl, rfl⟩
  simp [run_loop, dispatch_step]

/-- C9: when the origin of a rename is untracked or not representable
as text, the handler returns normally with no catalog mutation and no
log, for every destination path — including one with no text
representation, since the destination is only converted after the
origin resolves. -/
theorem rename_untracked_origin_never_panics (c : Catalog) (o : Outcomes)
    (fromP toP : FsPath)
    (h : ∀ s, fromP.toStr = some s → findFileByPath c s = none) :
    ∃ r, handle_rename c o fromP toP = some r ∧ r.catalog = c ∧ r.logs = [] :=
  handle_rename_unresolved h

/-- Witness for C9: a rename with an untracked origin and a
non-representable destination is a logged-nothing no-op, not a
panic. -/
theorem rename_untracked_origin_never_panics_witness :
    ∃ r, handle_rename cOne allOk pUntracked pNoText = some r ∧
      r.catalog = cOne ∧ r.logs = [] :=
  rename_untracked_origin_never_panics cOne allOk pUntracked pNoText
    (fun s hs => by
      injection hs with h2
      subst h2
      rfl)

/-- C1 (code bug): at a rename whose origin resolves to a tracked File
record and whose destination has no text representation, the handler
reaches `to.to_str().unwrap()` and panics (modelled as `none`): the
update failure is not logged and the process crashes instead of
treating the event as a recoverable failure. -/
theorem rename_nonrepresentable_dest_panics :
    findFileByPath cBar "/lib/movies/Bar.mkv" = some ⟨7, "/lib/movies/Bar.mkv", 3, 5⟩ ∧
    handle_rename cBar allOk pBarFrom pBadDest = none :=
  ⟨rfl, rfl⟩

/-- Counterexample to C5 as stated: a rename whose origin resolves to a
tracked File record but whose destination is not representable as text
does not update the record's stored path — the handler panics
(modelled as `none`), so no post-state with the update exists. -/
theorem rename_updates_path_counterexample :
    findFileByPath cOne "/lib/movies/Foo.mkv" = some fFoo ∧
    handle_rename cOne allOk pSupported pNoText = none :=
  ⟨rfl, rfl⟩

/-- C5 (amended): for a rename whose origin resolves to a tracked File
record, whose destination is representable as text, and whose store
update succeeds, exactly the stored path of the resolved record is set
to the destination; every other field of every record and the works
list are unchanged, and nothing is logged. -/
theorem rename_tracked_updates_path_only (c : Catalog) (o : Outcomes)
    (fromP toP : FsPath) (s t : String) (f : File)
    (hs : fromP.toStr = some s) (hf : findFileByPath c s = some f)
    (ht : toP.toStr = some t) (hg : o.getByFileOk = true) (hu : o.updateOk = true) :
    ∃ r, handle_rename c o fromP toP = some r ∧
      r.catalog.works = c.works ∧
      r.catalog.files =
        c.files.map (fun g => if g.id = f.id then { g with path := t } else g) ∧
      { f with path := t } ∈ r.catalog.files ∧
      (∀ g ∈ c.files, g.id ≠ f.id → g ∈ r.catalog.files) ∧
      r.logs = [] := by
  have hfmem : f ∈ c.files := findFileByPath_mem hf
  refine ⟨_, handle_rename_tracked hs hf ht hg hu, rfl, rfl, ?_, ?_, rfl⟩
  · simp only [updateFile, List.mem_map]
    exact ⟨f, hfmem, by simp⟩
  · intro g hgmem hgne
    simp only [updateFile, List.mem_map]
    exact ⟨g, hgmem, by simp [hgne]⟩

/-- Witness for the amended C5 at a concrete tracked file and a
concrete representable destination. -/
theorem rename_tracked_updates_path_only_witness :
    (pSupported.toStr = some "/lib/movies/Foo.mkv" ∧
     findFileByPath cOne "/lib/movies/Foo.mkv" = some fFoo ∧
     pDest.toStr = some "/lib/movies/Foo (2020).mkv") ∧
    ∃ r, handle_rename cOne allOk pSupported pDest = some r ∧
      r.catalog.works = cOne.works ∧
      r.catalog.files = cOne.files.map
        (fun g => if g.id = fFoo.id then { g with path := "/lib/movies/Foo (2020).mkv" } else g) ∧
      { fFoo with path := "/lib/movies/Foo (2020).mkv" } ∈ r.catalog.files ∧
      (∀ g ∈ cOne.files, g.id ≠ fFoo.id → g ∈ r.catalog.files) ∧
      r.logs = [] :=
  ⟨⟨rfl, rfl, rfl⟩,
   rename_tracked_updates_path_only cOne allOk pSupported pDest
     "/lib/movies/Foo.mkv" "/lib/movies/Foo (2020).mkv" fFoo rfl rfl rfl rfl rfl⟩

/-- C2: for a tracked file F owned by Work W, handle_remove deletes F's
File record and deletes W exactly when W's file list, queried after
that deletion, is empty: a second owned file keeps W and itself alive,
while a sole file takes W with it. -/
theorem remove_tracked_deletes_file_and_ghost_work (c : Catalog) (p : FsPath)
    (s : String) (f : File) (w : Work)
    (hwf : WellFormed c) (hs : p.toStr = some s)
    (hf : findFileByPath c s = some f) (hw : findWorkOfFile c f = some w) :
    (handle_remove c allOk p).catalog.files =
      c.files.filter (fun g => g.id ≠ f.id) ∧
    f ∉ (handle_remove c allOk p).catalog.files ∧
    ((handle_remove c allOk p).catalog.works =
      if (listFilesOfWork (deleteFile c f.id) w).isEmpty then
        c.works.filter (fun v => v.id ≠ w.id)
      else c.works) ∧
    ((∃ g ∈ c.files, g.workId = w.id ∧ g ≠ f) →
      w ∈ (handle_remove c allOk p).catalog.works ∧
      ∀ g ∈ c.files, g.workId = w.id → g ≠ f →
        g ∈ (handle_remove c allOk p).catalog.files) ∧
    ((∀ g ∈ c.files, g.workId = w.id → g = f) →
      w ∉ (handle_remove c allOk p).catalog.works) := by
  obtain ⟨hids, hwids, hpaths⟩ := hwf
  have hfmem : f ∈ c.files := findFileByPath_mem hf
  have hfiles := (handle_remove_tracked_files hs hf).1
  have hkey := handle_remove_tracked hs hf hw
  have hworks : (handle_remove c allOk p).catalog.works =
      if (listFilesOfWork (deleteFile c f.id) w).isEmpty then
        c.works.filter (fun v => v.id ≠ w.id)
      else c.works := by
    rw [hkey]
    split <;> simp [deleteWork, deleteFile]
  refine ⟨hfiles, ?_, hworks, ?_, ?_⟩
  · rw [hfiles]
    simp [List.mem_filter]
  · rintro ⟨g, hg, hgw, hgne⟩
    have hgid : g.id ≠ f.id := fun he =>
      hgne (List.inj_on_of_nodup_map hids hg hfmem he)
    have hgmem : g ∈ listFilesOfWork (deleteFile c f.id) w := by
      simp only [listFilesOfWork, deleteFile, List.mem_filter]
      exact ⟨⟨hg, by simp [hgid]⟩, by simp [hgw]⟩
    have hne : ¬ (listFilesOfWork (deleteFile c f.id) w).isEmpty = true := by
      rw [List.isEmpty_iff]
      exact List.ne_nil_of_mem hgmem
    constructor
    · rw [hworks, if_neg hne]
      exact findWorkOfFile_mem hw
    · intro g2 hg2 hgw2 hgne2
      have hgid2 : g2.id ≠ f.id := fun he =>
        hgne2 (List.inj_on_of_nodup_map hids hg2 hfmem he)
      rw [hfiles]
      simp only [List.mem_filter]
      exact ⟨hg2, by simp [hgid2]⟩
  · intro hall
    have hnil : listFilesOfWork (deleteFile c f.id) w = [] := by
      rw [List.eq_nil_iff_forall_not_mem]
      intro g hgmem
      have h1 : g ∈ c.files ∧ g.workId = w.id ∧ ¬ g.id = f.id := by
        simpa [listFilesOfWork, deleteFile, List.mem_filter, and_assoc] using hgmem
      have hgf : g = f := hall g h1.1 h1.2.1
      exact h1.2.2 (by rw [hgf])
    rw [hworks, if_pos (by rw [hnil]; rfl)]
    simp [List.mem_filter]

/-- Witness for C2 at the two-file catalog: removing the first file
keeps the work and the second file. -/
theorem remove_tracked_deletes_file_and_ghost_work_witness :
    (WellFormed cTwo ∧ pRmA.toStr = some "/lib/a.mkv" ∧
     findFileByPath cTwo "/lib/a.mkv" = some fA ∧
     findWorkOfFile cTwo fA = some wEx) ∧
    ((handle_remove cTwo allOk pRmA).catalog.files =
      cTwo.files.filter (fun g => g.id ≠ fA.id) ∧
    fA ∉ (handle_remove cTwo allOk pRmA).catalog.files ∧
    ((handle_remove cTwo allOk pRmA).catalog.works =
      if (listFilesOfWork (deleteFile cTwo fA.id) wEx).isEmpty then
        cTwo.works.filter (fun v => v.id ≠ wEx.id)
      else cTwo.works) ∧
    ((∃ g ∈ cTwo.files, g.workId = wEx.id ∧ g ≠ fA) →
      wEx ∈ (handle_remove cTwo allOk pRmA).catalog.works ∧
      ∀ g ∈ cTwo.files, g.workId = wEx.id → g ≠ fA →
        g ∈ (handle_remove cTwo allOk pRmA).catalog.files) ∧
    ((∀ g ∈ cTwo.files, g.workId = wEx.id → g = fA) →
      wEx ∉ (handle_remove cTwo allOk pRmA).catalog.works)) :=
  ⟨⟨by decide, rfl, rfl, rfl⟩,
   remove_tracked_deletes_file_and_ghost_work cTwo pRmA "/lib/a.mkv" fA wEx
     (by decide) rfl rfl rfl⟩

/-- C4: a Remove or Rename whose path resolves to no File record is a
no-op raising no error, and a second Remove of the same path after a
first successful one is a no-op with no error. -/
theorem untracked_noop_and_remove_idempotent (c : Catalog) (o : Outcomes)
    (p q : FsPath) :
    ((∀ s, p.toStr = some s → findFileByPath c s = none) →
      (handle_remove c o p).catalog = c ∧ (handle_remove c o p).logs = [] ∧
      ∃ r, handle_rename c o p q = some r ∧ r.catalog = c ∧ r.logs = []) ∧
    (WellFormed c →
      (handle_remove (handle_remove c allOk p).catalog allOk p).catalog =
        (handle_remove c allOk p).catalog ∧
      (handle_remove (handle_remove c allOk p).catalog allOk p).logs = []) := by
  constructor
  · intro h
    have h2 : ∀ s, p.toStr = some s →
        (if o.getByFileOk then findFileByPath c s else none) = none := by
      intro s hs
      cases o.getByFileOk <;> simp [h s hs]
    obtain ⟨h3, h4⟩ := handle_remove_unresolved h2
    exact ⟨h3, h4, handle_rename_unresolved h⟩
  · intro hwf
    obtain ⟨hids, hwids, hpaths⟩ := hwf
    cases hs : p.toStr with
    | none =>
      have h2 : ∀ s, p.toStr = some s →
          (if allOk.getByFileOk then
            findFileByPath (handle_remove c allOk p).catalog s else none) = none := by
        intro s hs2
        rw [hs] at hs2
        exact absurd hs2 (by simp)
      exact handle_remove_unresolved h2
    | some s =>
      cases hf : findFileByPath c s with
      | none =>
        have h2 : ∀ s2, p.toStr = some s2 →
            (if allOk.getByFileOk then findFileByPath c s2 else none) = none := by
          intro s2 hs2
          rw [hs] at hs2
          injection hs2 with he
          subst he
          simp [allOk, hf]
        obtain ⟨h3, h4⟩ := handle_remove_unresolved h2
        rw [h3]
        exact ⟨h3, h4⟩
      | some f =>
        have hfmem := findFileByPath_mem hf
        have hfpath := findFileByPath_path hf
        have hfiles := (handle_remove_tracked_files hs hf).1
        have hnone : findFileByPath (handle_remove c allOk p).catalog s = none := by
          unfold findFileByPath
          rw [hfiles]
          apply List.find?_eq_none.mpr
          intro g hg hpg
          have h1 : g ∈ c.files ∧ (!decide (g.id = f.id)) = true := by
            simpa [List.mem_filter] using hg
          have hgs : g.path = s := of_decide_eq_true hpg
          have hgf : g = f :=
            List.inj_on_of_nodup_map hpaths h1.1 hfmem (by rw [hgs, hfpath])
          rw [hgf] at h1
          simpa using h1.2
        have h2 : ∀ s2, p.toStr = some s2 →
            (if allOk.getByFileOk then
              findFileByPath (handle_remove c allOk p).catalog s2 else none) = none := by
          intro s2 hs2
          rw [hs] at hs2
          injection hs2 with he
          subst he
          have hgb : allOk.getByFileOk = true := rfl
          simp [hgb, hnone]
        exact handle_remove_unresolved h2

/-- Witness for C4: an untracked Remove and Rename on the sample
catalog are no-ops, and a Remove of the tracked path followed by the
same Remove again leaves the once-mutated catalog unchanged with no
log. -/
theorem untracked_noop_and_remove_idempotent_witness :
    ((handle_remove cOne allOk pUntracked).catalog = cOne ∧
     (handle_remove cOne allOk pUntracked).logs = [] ∧
     ∃ r, handle_rename cOne allOk pUntracked pNoText = some r ∧
       r.catalog = cOne ∧ r.logs = []) ∧
    ((handle_remove (handle_remove cOne allOk pSupported).catalog allOk pSupported).catalog =
      (handle_remove cOne allOk pSupported).catalog ∧
     (handle_remove (handle_remove cOne allOk pSupported).catalog allOk pSupported).logs = []) :=
  ⟨(untracked_noop_and_remove_idempotent cOne allOk pUntracked pNoText).1
     (fun s hs => by
       injection hs with h2
       subst h2
       rfl),
   (untracked_noop_and_remove_idempotent cOne allOk pSupported pNoText).2 (by decide)⟩

/-- C6: when the File deletion fails during handle_remove, the handler
logs one error and aborts: the catalog is unchanged and neither the
Work's file list is queried nor any Work deleted. -/
theorem remove_delete_failure_aborts (c : Catalog) (o : Outcomes) (p : FsPath)
    (s : String) (f : File)
    (hs : p.toStr = some s) (hf : findFileByPath c s = some f)
    (hg : o.getByFileOk = true) (hd : o.deleteFileOk = false) :
    (handle_remove c o p).catalog = c ∧
    (handle_remove c o p).logs = [LogEvent.errDeleteFileFailed] ∧
    (∀ wid, StoreOp.getOfMedia wid ∉ (handle_remove c o p).ops) ∧
    (∀ wid, StoreOp.delWork wid ∉ (handle_remove c o p).ops) := by
  have hkey : handle_remove c o p =
      { catalog := c,
        ops := [StoreOp.getByFile s, StoreOp.getOfMediafile f.id, StoreOp.delFile f.id],
        logs := [LogEvent.errDeleteFileFailed] } := by
    unfold handle_remove
    rw [hs]
    simp [hg, hf, hd]
  rw [hkey]
  refine ⟨rfl, rfl, ?_, ?_⟩ <;> intro wid <;> simp

/-- Witness for C6 at the sample catalog with a failing File
deletion. -/
theorem remove_delete_failure_aborts_witness :
    (pSupported.toStr = some "/lib/movies/Foo.mkv" ∧
     findFileByPath cOne "/lib/movies/Foo.mkv" = some fFoo ∧
     oDeleteFails.getByFileOk = true ∧ oDeleteFails.deleteFileOk = false) ∧
    ((handle_remove cOne oDeleteFails pSupported).catalog = cOne ∧
     (handle_remove cOne oDeleteFails pSupported).logs = [LogEvent.errDeleteFileFailed] ∧
     (∀ wid, StoreOp.getOfMedia wid ∉ (handle_remove cOne oDeleteFails pSupported).ops) ∧
     (∀ wid, StoreOp.delWork wid ∉ (handle_remove cOne oDeleteFails pSupported).ops)) :=
  ⟨⟨rfl, rfl, rfl, rfl⟩,
   remove_delete_failure_aborts cOne oDeleteFails pSupported "/lib/movies/Foo.mkv" fFoo
     rfl rfl rfl rfl⟩

/-- C10: when listing the resolved Work's remaining files fails after a
successful File deletion, ghost cleanup is silently skipped: the File
deletion is retained, the works list is untouched, no Work deletion is
attempted, nothing is logged, and the handler returns normally. -/
theorem remove_list_failure_skips_ghost_cleanup (c : Catalog) (o : Outcomes)
    (p : FsPath) (s : String) (f : File) (w : Work)
    (hs : p.toStr = some s) (hf : findFileByPath c s = some f)
    (hw : findWorkOfFile c f = some w)
    (hg : o.getByFileOk = true) (hm : o.getOfMediafileOk = true)
    (hd : o.deleteFileOk = true) (hl : o.getOfMediaOk = false) :
    (handle_remove c o p).catalog = deleteFile c f.id ∧
    (handle_remove c o p).catalog.works = c.works ∧
    w ∈ (handle_remove c o p).catalog.works ∧
    (handle_remove c o p).logs = [] ∧
    ∀ wid, StoreOp.delWork wid ∉ (handle_remove c o p).ops := by
  have hkey : handle_remove c o p =
      { catalog := deleteFile c f.id,
        ops := [StoreOp.getByFile s, StoreOp.getOfMediafile f.id, StoreOp.delFile f.id,
                StoreOp.getOfMedia w.id],
        logs := [] } := by
    unfold handle_remove
    rw [hs]
    simp [hg, hf, hm, hw, hd, hl]
  rw [hkey]
  exact ⟨rfl, rfl, findWorkOfFile_mem hw, rfl, by intro wid; simp⟩

/-- Witness for C10 at the sample catalog with a failing file-list
query. -/
theorem remove_list_failure_skips_ghost_cleanup_witness :
    (pSupported.toStr = some "/lib/movies/Foo.mkv" ∧
     findFileByPath cOne "/lib/movies/Foo.mkv" = some fFoo ∧
     findWorkOfFile cOne fFoo = some ⟨10⟩ ∧ oListFails.getOfMediaOk = false) ∧
    ((handle_remove cOne oListFails pSupported).catalog = deleteFile cOne fFoo.id ∧
     (handle_remove cOne oListFails pSupported).catalog.works = cOne.works ∧
     (⟨10⟩ : Work) ∈ (handle_remove cOne oListFails pSupported).catalog.works ∧
     (handle_remove cOne oListFails pSupported).logs = [] ∧
     ∀ wid, StoreOp.delWork wid ∉ (handle_remove cOne oListFails pSupported).ops) :=
  ⟨⟨rfl, rfl, rfl, rfl⟩,
   remove_list_failure_skips_ghost_cleanup cOne oListFails pSupported
     "/lib/movies/Foo.mkv" fFoo ⟨10⟩ rfl rfl rfl rfl rfl rfl rfl⟩

end ScannerDaemon
